import Mathlib

set_option maxRecDepth 16384
set_option maxHeartbeats 1000000

/-!
Shallow embedding of the original logic of the embedding microservice
(`app.py`): the text cleaning helper `clean_text_for_classification`, the
heuristic scorer `calculate_article_score`, and the request orchestration for
the embed, classify and persistence endpoints.  Machine floats of the source
are modelled as rationals; raised Python exceptions are modelled with
`Except`; the external model collaborators are parameters.
-/

deriving instance DecidableEq for Except

set_option allowUnsafeReducibility true in
attribute [semireducible] Rat.mul Rat.inv Rat.add Rat.sub

/-- Whitespace characters recognised by the cleaning code (the ASCII fragment
of Python `str.strip` / regex `\s`). -/
def isPySpace (c : Char) : Bool :=
  c = ' ' || c = '\t' || c = '\n' || c = '\r' || c = '\x0b' || c = '\x0c'

/-- Python `str.strip()` on a list of characters: drop whitespace from both
ends. -/
def pyStripList (l : List Char) : List Char :=
  ((l.dropWhile isPySpace).reverse.dropWhile isPySpace).reverse

/-- Python `str.strip()`. -/
def pyStrip (s : String) : String := String.mk (pyStripList s.data)

/-- Helper for `len(s.split())`: count maximal nonspace runs; the flag records
whether we are currently inside a word. -/
def wordCountAux : Bool → List Char → Nat
  | _, [] => 0
  | inWord, c :: cs =>
    if isPySpace c then wordCountAux false cs
    else (if inWord then 0 else 1) + wordCountAux true cs

/-- Python `len(s.split())`. -/
def wordCount (s : String) : Nat := wordCountAux false s.data

/-- The structure indicator characters of Factor 4 of the scorer. -/
def structureChars : List Char := ['.', '!', '?', ':', ';', ',']

/-- `sum(original_text.count(i) for i in structure_indicators)`. -/
def structureCount (s : String) : Nat :=
  (s.data.filter (fun c => structureChars.contains c)).length

/-- Factor 1 of the scorer: length-band adjustment, applied to
`len(original_text.strip())`.  All comparisons are strict, as in the source. -/
def lengthAdjust (n : Nat) : ℚ :=
  if n > 1000 then 3/10
  else if n > 500 then 2/10
  else if n > 200 then 1/10
  else if n < 50 then -(2/10)
  else 0

/-- Factor 2 of the scorer: word-count band adjustment. -/
def wordAdjust (n : Nat) : ℚ :=
  if n > 200 then 2/10
  else if n > 100 then 1/10
  else if n < 20 then -(1/10)
  else 0

/-- Factor 4 of the scorer: punctuation-count band adjustment. -/
def punctAdjust (n : Nat) : ℚ :=
  if n > 10 then 1/10
  else if n > 5 then 1/20
  else 0

/-- JSON-ish scalar values stored in a classifier result entry. -/
inductive PyVal
  | str (s : String)
  | num (q : ℚ)
deriving DecidableEq

/-- A classifier result entry, modelled as a Python dict from string keys to
values. -/
abbrev PyDict := List (String × PyVal)

/-- Python dict lookup returning `none` when the key is absent. -/
def dictGet (d : PyDict) (k : String) : Option PyVal :=
  (d.find? (fun p => p.1 == k)).map (fun p => p.2)

/-- One iteration of the sentiment loop (Factor 3).  `Except.error` models a
raised exception: a missing key raises `KeyError`, and arithmetic or an order
comparison on a non-numeric score raises `TypeError`. -/
def sentimentStep (acc : ℚ) (result : PyDict) : Except String ℚ :=
  match dictGet result "label" with
  | none => Except.error "KeyError: label"
  | some lv =>
    if lv = PyVal.str "POSITIVE" then
      match dictGet result "score" with
      | some (PyVal.num q) => Except.ok (acc + (q - 1/2) * (3/10))
      | some (PyVal.str _) => Except.error "TypeError: unsupported operand"
      | none => Except.error "KeyError: score"
    else if lv = PyVal.str "NEGATIVE" then
      match dictGet result "score" with
      | some (PyVal.num q) => Except.ok (if q > 8/10 then acc - 1/10 else acc)
      | some (PyVal.str _) => Except.error "TypeError: not comparable"
      | none => Except.error "KeyError: score"
    else Except.ok acc

/-- The sentiment loop over `sentiment_result[0]`. -/
def sentLoop : List PyDict → ℚ → Except String ℚ
  | [], acc => Except.ok acc
  | r :: rest, acc =>
    match sentimentStep acc r with
    | Except.error e => Except.error e
    | Except.ok acc2 => sentLoop rest acc2

/-- `max(0.0, min(1.0, q))`. -/
def clamp01 (q : ℚ) : ℚ := max 0 (min 1 q)

/-- The scorer's base after Factors 1 and 2 (starting from `base_score = 0`). -/
def scoreBase (original_text : String) : ℚ :=
  0 + lengthAdjust (pyStrip original_text).length + wordAdjust (wordCount original_text)

/-- `calculate_article_score` from `app.py`: additive heuristic over length,
word count, sentiment and punctuation signals, with `0.5` added at the end and
the result clamped to `[0, 1]`.  The sentiment factor walks
`sentiment_result[0]` when the outer list is nonempty; a malformed entry makes
the whole computation fail, as a raised exception does in the source. -/
def calculate_article_score (original_text : String)
    (sentiment_result : List (List PyDict)) : Except String ℚ :=
  match (match sentiment_result with
         | [] => Except.ok (scoreBase original_text)
         | first :: _ => sentLoop first (scoreBase original_text)) with
  | Except.error e => Except.error e
  | Except.ok base3 =>
      Except.ok (clamp01 (base3 + punctAdjust (structureCount original_text) + 1/2))

/-- The score a text receives when the sentiment factor contributes nothing. -/
def noSentScore (original_text : String) : ℚ :=
  clamp01 (scoreBase original_text + punctAdjust (structureCount original_text) + 1/2)

/-- Helper for `re.sub(r'\s+', ' ', text)`: replace every maximal whitespace
run by a single space.  The flag records whether the current position is
inside a run whose replacement space has already been emitted. -/
def collapseAux : Bool → List Char → List Char
  | _, [] => []
  | inRun, c :: cs =>
    if isPySpace c then
      if inRun then collapseAux true cs else ' ' :: collapseAux true cs
    else c :: collapseAux false cs

/-- `re.sub(r'\s+', ' ', text)`. -/
def collapseWS (l : List Char) : List Char := collapseAux false l

/-- The set of characters matched by one repetition of the URL pattern's
alternation: letters, digits, the character-class range from 0x24 to 0x5f,
and the explicitly listed punctuation. -/
def urlChar (c : Char) : Bool :=
  c.isAlpha || c.isDigit || (36 ≤ c.toNat && c.toNat ≤ 95) ||
    c = '!' || c = '*' || c = '\\' || c = '(' || c = ')' || c = ','

/-- Try to match the URL pattern `http[s]?://` followed by one or more
`urlChar`s at the head of `l`; return the number of characters the greedy
match consumes. -/
def matchUrlAt (l : List Char) : Option Nat :=
  if l.take 8 = "https://".data then
    let k := ((l.drop 8).takeWhile urlChar).length
    if k = 0 then none else some (8 + k)
  else if l.take 7 = "http://".data then
    let k := ((l.drop 7).takeWhile urlChar).length
    if k = 0 then none else some (7 + k)
  else none

/-- Left-to-right scan deleting every non-overlapping URL match, as
`re.sub(url_pattern, '', text)` does.  Each step consumes at least one
character, so fuel equal to the input length always suffices. -/
def stripUrlsAux : Nat → List Char → List Char
  | 0, l => l
  | _ + 1, [] => []
  | n + 1, c :: cs =>
    match matchUrlAt (c :: cs) with
    | some k => stripUrlsAux n ((c :: cs).drop k)
    | none => c :: stripUrlsAux n cs

/-- `re.sub(url_pattern, '', text)`. -/
def stripUrls (l : List Char) : List Char := stripUrlsAux l.length l

/-- A maximal nonspace run is deleted by `re.sub(r'\S+@\S+', '', text)` iff it
has an `@` at an interior position (the greedy leftmost match then spans the
whole run). -/
def runHasInteriorAt (run : List Char) : Bool :=
  ((run.drop 1).dropLast).contains '@'

/-- Left-to-right scan deleting email-like runs, as
`re.sub(r'\S+@\S+', '', text)` does. -/
def stripEmailsAux : Nat → List Char → List Char
  | 0, l => l
  | _ + 1, [] => []
  | n + 1, c :: cs =>
    if isPySpace c then c :: stripEmailsAux n cs
    else
      (if runHasInteriorAt (c :: cs.takeWhile (fun x => !isPySpace x)) then []
       else c :: cs.takeWhile (fun x => !isPySpace x)) ++
        stripEmailsAux n (cs.dropWhile (fun x => !isPySpace x))

/-- `re.sub(r'\S+@\S+', '', text)`. -/
def stripEmails (l : List Char) : List Char := stripEmailsAux l.length l

/-- `clean_text_for_classification` from `app.py`: strip, collapse whitespace,
remove URLs, remove emails, truncate a text longer than 500 characters to its
first 400 characters plus a space plus its last 100 characters, and strip
again. -/
def cleanList (l : List Char) : List Char :=
  let t3 := stripEmails (stripUrls (collapseWS (pyStripList l)))
  pyStripList
    (if t3.length > 500 then t3.take 400 ++ ' ' :: t3.drop (t3.length - 100) else t3)

/-- `clean_text_for_classification` on strings. -/
def clean_text_for_classification (s : String) : String := String.mk (cleanList s.data)

/-- Response of the `/embed` endpoint (`generate_embedding`).  The encode
collaborator is a parameter; its `Except.error` models a raised exception,
which the endpoint maps to the constant generic notice. -/
inductive EmbedResponse
  | missingText
  | emptyText
  | ok (text : String) (embedding : List ℚ) (dimension : Nat)
  | internalError (msg : String)
deriving DecidableEq

/-- `generate_embedding` from `app.py`: validate the text field, encode the
stripped text, and answer with the original text, the vector and its length;
any exception becomes the generic internal-error notice. -/
def generate_embedding (encode : String → Except String (List ℚ))
    (textField : Option String) : EmbedResponse :=
  match textField with
  | none => EmbedResponse.missingText
  | some text =>
    if pyStrip text = "" then EmbedResponse.emptyText
    else
      match encode (pyStrip text) with
      | Except.error _ => EmbedResponse.internalError "Internal server error"
      | Except.ok emb => EmbedResponse.ok text emb emb.length

/-- The `texts` field of a batch request: absent, present but not a list, or
a list of strings. -/
inductive TextsField
  | absent
  | notList
  | list (xs : List String)

/-- `[text.strip() for text in texts if text and text.strip()]`. -/
def embedSurvivors (texts : List String) : List String :=
  (texts.filter (fun t => pyStrip t != "")).map pyStrip

/-- Successful payload of `/embed/batch`. -/
structure BatchEmbedOk where
  texts : List String
  embeddings : List (List ℚ)
  count : Nat
  dimension : Nat
deriving DecidableEq

/-- Response of `/embed/batch` (`generate_batch_embeddings`). -/
inductive BatchEmbedResponse
  | validationError (msg : String)
  | ok (r : BatchEmbedOk)
  | internalError (msg : String)
deriving DecidableEq

/-- `generate_batch_embeddings` from `app.py`: reject a missing, non-list or
empty `texts` field, drop blank entries, reject the request when nothing
survives, then encode the survivors in one batch collaborator call; the
dimension is the length of the first vector, or 0 when there is none. -/
def generate_batch_embeddings (encodeB : List String → Except String (List (List ℚ)))
    (tf : TextsField) : BatchEmbedResponse :=
  match tf with
  | TextsField.absent => BatchEmbedResponse.validationError "Missing texts field in request"
  | TextsField.notList => BatchEmbedResponse.validationError "Empty or invalid texts list"
  | TextsField.list texts =>
    if texts.isEmpty then BatchEmbedResponse.validationError "Empty or invalid texts list"
    else if (embedSurvivors texts).isEmpty then
      BatchEmbedResponse.validationError "No valid texts provided"
    else
      match encodeB (embedSurvivors texts) with
      | Except.error _ => BatchEmbedResponse.internalError "Internal server error"
      | Except.ok embs =>
          BatchEmbedResponse.ok ⟨embedSurvivors texts, embs, embs.length,
            match embs with
            | [] => 0
            | v :: _ => v.length⟩

/-- The display text of a classify result: first 100 characters plus an
ellipsis when longer than 100. -/
def truncDisplay (t : String) : String :=
  if t.length > 100 then String.mk (t.data.take 100) ++ "..." else t

/-- The surviving entries of a classify batch, paired with their original
positional index, as built by the `original_indices` bookkeeping. -/
def classifySurvivors (texts : List String) : List (Nat × String) :=
  texts.enum.filter (fun p => pyStrip p.2 != "")

/-- One entry of the classify-batch result list. -/
structure ClassifyItem where
  text : String
  is_article : Bool
  confidence : ℚ
  index : Nat
deriving DecidableEq

/-- Successful payload of `/classify/batch`. -/
structure ClassifyBatchOk where
  results : List ClassifyItem
  count : Nat
  processed : Nat
deriving DecidableEq

/-- Response of `/classify/batch` (`classify_batch_content`). -/
inductive ClassifyBatchResponse
  | validationError (msg : String)
  | ok (r : ClassifyBatchOk)
  | internalError (msg : String)
deriving DecidableEq

/-- The per-item loop of `classify_batch_content`: each survivor is cleaned
from its stripped text, classified individually, and scored against its
original (unstripped) text; a raised exception aborts the whole loop. -/
def classifyLoop (classify : String → List (List PyDict)) :
    List (Nat × String) → Except String (List ClassifyItem)
  | [] => Except.ok []
  | p :: ps =>
    match calculate_article_score p.2
        (classify (clean_text_for_classification (pyStrip p.2))) with
    | Except.error e => Except.error e
    | Except.ok sc =>
      match classifyLoop classify ps with
      | Except.error e => Except.error e
      | Except.ok rest =>
          Except.ok ({ text := truncDisplay p.2, is_article := decide ((1:ℚ)/2 < sc),
                       confidence := sc, index := p.1 } :: rest)

/-- `classify_batch_content` from `app.py`. -/
def classify_batch_content (classify : String → List (List PyDict))
    (tf : TextsField) : ClassifyBatchResponse :=
  match tf with
  | TextsField.absent => ClassifyBatchResponse.validationError "Missing texts field in request"
  | TextsField.notList => ClassifyBatchResponse.validationError "Empty or invalid texts list"
  | TextsField.list texts =>
    if texts.isEmpty then ClassifyBatchResponse.validationError "Empty or invalid texts list"
    else if (classifySurvivors texts).isEmpty then
      ClassifyBatchResponse.validationError "No valid texts provided"
    else
      match classifyLoop classify (classifySurvivors texts) with
      | Except.error _ => ClassifyBatchResponse.internalError "Internal server error"
      | Except.ok rs => ClassifyBatchResponse.ok ⟨rs, rs.length, (classifySurvivors texts).length⟩

/-- Python `str.replace(pat, '')` for a nonempty pattern `p :: ps`: scan left
to right, deleting non-overlapping occurrences without rescanning.  Fuel equal
to the input length suffices since each step consumes at least one character. -/
def removeSubAux (p : Char) (ps : List Char) : Nat → List Char → List Char
  | 0, l => l
  | _ + 1, [] => []
  | n + 1, c :: cs =>
    if c = p ∧ cs.take ps.length = ps then removeSubAux p ps n (cs.drop ps.length)
    else c :: removeSubAux p ps n cs

/-- Python `str.replace(pat, '')`. -/
def removeAllSub (p : Char) (ps : List Char) (l : List Char) : List Char :=
  removeSubAux p ps l.length l

/-- Curly brace test for `str.strip('\x7b\x7d')` in the UUID constructor. -/
def isBrace (c : Char) : Bool := c = '\x7b' || c = '\x7d'

/-- `str.strip('\x7b\x7d')`. -/
def stripBraces (l : List Char) : List Char :=
  ((l.dropWhile isBrace).reverse.dropWhile isBrace).reverse

/-- Hexadecimal digit test used by UUID parsing. -/
def isHexDigit (c : Char) : Bool :=
  c.isDigit || (97 ≤ c.toNat && c.toNat ≤ 102) || (65 ≤ c.toNat && c.toNat ≤ 70)

/-- The hex-normalisation done by Python's `uuid.UUID(hex=s)`: drop every
`urn:` and `uuid:` occurrence, strip surrounding braces, drop hyphens. -/
def uuidTransform (s : String) : List Char :=
  (stripBraces (removeAllSub 'u' "uid:".data (removeAllSub 'u' "rn:".data s.data))).filter
    (fun c => c != '-')

/-- A string is accepted by `UUID(article_id)` iff its normalised hex form has
exactly 32 hexadecimal digits. -/
def isValidUUID (s : String) : Bool :=
  (uuidTransform s).length == 32 && (uuidTransform s).all isHexDigit

/-- The canonical lookup key of a UUID string: UUID equality is by value, so
two spellings agree iff their lowercased 32-digit hex forms agree. -/
def uuidKey (s : String) : String := String.mk ((uuidTransform s).map Char.toLower)

/-- The two columns of an article row this service ever writes. -/
structure ArticleRec where
  embedding : Option (List ℚ)
  embedding_status : String
deriving DecidableEq

/-- The articles table, keyed by canonical UUID key. -/
abbrev DB := List (String × ArticleRec)

/-- `session.query(Article).filter(Article.id == uuid).first()`. -/
def dbGet (db : DB) (k : String) : Option ArticleRec :=
  (db.find? (fun p => p.1 == k)).map (fun p => p.2)

/-- In-session update of the row with key `k`; rows are never created. -/
def dbSet (db : DB) (k : String) (r : ArticleRec) : DB :=
  db.map (fun p => if p.1 == k then (p.1, r) else p)

/-- Response of `/articles/{id}/embedding` (`generate_and_store_embedding`). -/
inductive StoreResponse
  | invalidId
  | missingText
  | emptyText
  | notFound
  | stored (article_id : String) (dim : Nat)
  | internalError
deriving DecidableEq

/-- `generate_and_store_embedding` from `app.py`: validate the UUID and the
text, encode, then inside one session look the row up (404 leaves the table
unchanged, since nothing was modified before the commit) or update its two
embedding columns and commit. -/
def generate_and_store_embedding (encode : String → Except String (List ℚ))
    (db : DB) (article_id : String) (textField : Option String) : StoreResponse × DB :=
  if !isValidUUID article_id then (StoreResponse.invalidId, db)
  else
    match textField with
    | none => (StoreResponse.missingText, db)
    | some t =>
      if pyStrip t = "" then (StoreResponse.emptyText, db)
      else
        match encode (pyStrip t) with
        | Except.error _ => (StoreResponse.internalError, db)
        | Except.ok emb =>
          match dbGet db (uuidKey article_id) with
          | none => (StoreResponse.notFound, db)
          | some art =>
              (StoreResponse.stored article_id emb.length,
               dbSet db (uuidKey article_id)
                 { art with embedding := some emb, embedding_status := "success" })

/-- The `articles` field of a batch store request. -/
inductive ArticlesField
  | absent
  | notList
  | list (items : List (Option String × String))

/-- One entry of the batch store result list. -/
structure StoreItemResult where
  article_id : Option String
  status : String
  message : Option String
  embedding_dimension : Option Nat
deriving DecidableEq

/-- Successful payload of `/articles/batch/embedding`. -/
structure StoreBatchOk where
  total_articles : Nat
  successful_updates : Nat
  results : List StoreItemResult
deriving DecidableEq

/-- Response of `/articles/batch/embedding`. -/
inductive StoreBatchResponse
  | missingField
  | invalidList
  | ok (r : StoreBatchOk)
deriving DecidableEq

/-- The per-item loop of `generate_batch_embeddings_and_store`, threading the
one session's in-memory state: item-level failures (missing or blank fields,
bad UUID, raised encode exception, missing row) append an error entry whose
message for an exception is `str(e)`, and do not abort the batch; a found row
is updated in the session and counted. -/
def storeBatchLoop (encode : String → Except String (List ℚ)) :
    List (Option String × String) → DB → DB × Nat × List StoreItemResult
  | [], db => (db, 0, [])
  | item :: rest, db =>
    match item.1 with
    | none =>
      let out := storeBatchLoop encode rest db
      (out.1, out.2.1, ⟨none, "error", some "Missing article ID or text", none⟩ :: out.2.2)
    | some aid =>
      if aid = "" ∨ pyStrip item.2 = "" then
        let out := storeBatchLoop encode rest db
        (out.1, out.2.1, ⟨some aid, "error", some "Missing article ID or text", none⟩ :: out.2.2)
      else if !isValidUUID aid then
        let out := storeBatchLoop encode rest db
        (out.1, out.2.1, ⟨some aid, "error", some "Invalid article ID format", none⟩ :: out.2.2)
      else
        match encode (pyStrip item.2) with
        | Except.error e =>
          let out := storeBatchLoop encode rest db
          (out.1, out.2.1, ⟨some aid, "error", some e, none⟩ :: out.2.2)
        | Except.ok emb =>
          match dbGet db (uuidKey aid) with
          | none =>
            let out := storeBatchLoop encode rest db
            (out.1, out.2.1, ⟨some aid, "error", some "Article not found", none⟩ :: out.2.2)
          | some art =>
            let out := storeBatchLoop encode rest
              (dbSet db (uuidKey aid)
                { art with embedding := some emb, embedding_status := "success" })
            (out.1, out.2.1 + 1, ⟨some aid, "success", none, some emb.length⟩ :: out.2.2)

/-- `generate_batch_embeddings_and_store` from `app.py`: validate the
envelope, run the per-item loop inside one session, commit once at the end,
and answer with the total, the successful count and the per-item results. -/
def generate_batch_embeddings_and_store (encode : String → Except String (List ℚ))
    (db : DB) (af : ArticlesField) : StoreBatchResponse × DB :=
  match af with
  | ArticlesField.absent => (StoreBatchResponse.missingField, db)
  | ArticlesField.notList => (StoreBatchResponse.invalidList, db)
  | ArticlesField.list items =>
    if items.isEmpty then (StoreBatchResponse.invalidList, db)
    else
      let out := storeBatchLoop encode items db
      (StoreBatchResponse.ok ⟨items.length, out.2.1, out.2.2⟩, out.1)

/-- A constant encode collaborator used by concrete instances. -/
def encOne : String → Except String (List ℚ) := fun _ => Except.ok [0]

/-- A constant batch encode collaborator used by concrete instances. -/
def encBatchOne : List String → Except String (List (List ℚ)) :=
  fun ts => Except.ok (ts.map (fun _ => [0]))

/-- A classifier collaborator returning an empty result, used by instances. -/
def classifyNone : String → List (List PyDict) := fun _ => []

/-- A well-formed UUID string in hyphenated form. -/
def zeroUuid : String := "00000000-0000-0000-0000-000000000000"

/-- The canonical key of `zeroUuid`. -/
def zeroKey : String := "00000000000000000000000000000000"

/-- The response of the concrete classify-batch instance. -/
def exampleClassifyOk : ClassifyBatchOk :=
  ⟨[⟨"valid one", false, 1/5, 1⟩, ⟨"valid two", false, 1/5, 2⟩], 2, 2⟩

theorem clamp01_mem (q : ℚ) : 0 ≤ clamp01 q ∧ clamp01 q ≤ 1 := by
  unfold clamp01
  exact ⟨le_max_left _ _, max_le (by norm_num) (min_le_left _ _)⟩

/-- C1: for every original text and every classification result, any score the
scorer actually returns lies in the interval [0, 1]: the final result is
clamped regardless of the intermediate arithmetic. -/
theorem score_within_unit_interval (t : String) (res : List (List PyDict)) (q : ℚ)
    (h : calculate_article_score t res = Except.ok q) : 0 ≤ q ∧ q ≤ 1 := by
  unfold calculate_article_score at h
  split at h
  · exact absurd h (by simp)
  · injection h with h2
    subst h2
    exact clamp01_mem _

/-- C1 witness: at the concrete text "hi" with an empty classification result
the scorer returns 1/5, which the theorem places in [0, 1]. -/
theorem score_within_unit_interval_instance : (0:ℚ) ≤ 1/5 ∧ (1/5:ℚ) ≤ 1 :=
  score_within_unit_interval "hi" [] (1/5) (by decide)

/-- C2 counterexample: a text of exactly 500 characters receives the 200-500
band's +0.1 (total score 1/2 here), not the +0.2 the claim assigns (which
would give 3/5); and a text of exactly 200 characters receives no length
delta (total 2/5 here), not the +0.1 the claim assigns (which would give
1/2). -/
theorem score_boundary_500_refutes :
    calculate_article_score (String.mk (List.replicate 500 'a')) [] = Except.ok (1/2) ∧
    calculate_article_score (String.mk (List.replicate 200 'a')) [] = Except.ok (2/5) ∧
    (1:ℚ)/2 ≠ 3/5 ∧ (2:ℚ)/5 ≠ 1/2 :=
  ⟨by decide, by decide, by norm_num, by norm_num⟩

/-- C2 amended: every band comparison is strict, so the bands are
lower-exclusive and upper-inclusive: exactly 1000 characters falls in the
500-1000 band (+0.2), exactly 500 falls in the 200-500 band (+0.1), exactly
200 and exactly 50 characters receive no length delta, exactly 200 words
receives the 100-200 band's +0.1, and exactly 100 and exactly 20 words
receive no word delta. -/
theorem score_boundary_bands :
    lengthAdjust 1001 = 3/10 ∧ lengthAdjust 1000 = 2/10 ∧
    lengthAdjust 501 = 2/10 ∧ lengthAdjust 500 = 1/10 ∧
    lengthAdjust 201 = 1/10 ∧ lengthAdjust 200 = 0 ∧
    lengthAdjust 50 = 0 ∧ lengthAdjust 49 = -(2/10) ∧
    wordAdjust 201 = 2/10 ∧ wordAdjust 200 = 1/10 ∧
    wordAdjust 101 = 1/10 ∧ wordAdjust 100 = 0 ∧
    wordAdjust 20 = 0 ∧ wordAdjust 19 = -(1/10) ∧
    calculate_article_score (String.mk (List.replicate 500 'a')) [] = Except.ok (1/2) := by
  decide

/-- C3 counterexample: an entry missing the expected label key does not
contribute zero; it makes the whole score computation fail with a KeyError,
as dict indexing raises in the source. -/
theorem score_malformed_entry_fails :
    calculate_article_score "hello" [[[]]] = Except.error "KeyError: label" := by
  decide

/-- C3 amended: an empty classification result (an empty outer list, or a
first inner list with no entries) contributes zero sentiment adjustment and
the computation returns normally; but an entry missing the label key (or a
POSITIVE or NEGATIVE entry whose score is missing or non-numeric) raises and
fails the whole computation. -/
theorem score_empty_classification_ok (t : String) :
    calculate_article_score t [] = Except.ok (noSentScore t) ∧
    calculate_article_score t [[]] = Except.ok (noSentScore t) :=
  ⟨rfl, rfl⟩

theorem pyStripList_length_le (l : List Char) : (pyStripList l).length ≤ l.length := by
  unfold pyStripList
  have h1 : (l.dropWhile isPySpace).length ≤ l.length :=
    (List.dropWhile_suffix isPySpace).length_le
  have h2 : ((l.dropWhile isPySpace).reverse.dropWhile isPySpace).length ≤
      (l.dropWhile isPySpace).reverse.length :=
    (List.dropWhile_suffix isPySpace).length_le
  simp only [List.length_reverse] at h2 ⊢
  omega

/-- C10: the cleaned text is at most 501 characters long, and the bound is
attained: truncation produces 400 + 1 + 100 characters, so the output is not
bounded by the 500-character threshold the code truncates at. -/
theorem clean_length_bound :
    (∀ s : String, (clean_text_for_classification s).length ≤ 501) ∧
    (clean_text_for_classification (String.mk (List.replicate 510 'a'))).length = 501 := by
  constructor
  · intro s
    show (cleanList s.data).length ≤ 501
    unfold cleanList
    have hle := pyStripList_length_le
      (if (stripEmails (stripUrls (collapseWS (pyStripList s.data)))).length > 500 then
        (stripEmails (stripUrls (collapseWS (pyStripList s.data)))).take 400 ++
          ' ' :: (stripEmails (stripUrls (collapseWS (pyStripList s.data)))).drop
            ((stripEmails (stripUrls (collapseWS (pyStripList s.data)))).length - 100)
      else stripEmails (stripUrls (collapseWS (pyStripList s.data))))
    refine le_trans hle ?_
    split
    · rename_i hgt
      simp only [List.length_append, List.length_take, List.length_cons, List.length_drop]
      omega
    · rename_i hng
      omega
  · decide

theorem dropWhileSelf (l : List Char)
    (h : ∀ c, l.head? = some c → isPySpace c = false) :
    l.dropWhile isPySpace = l := by
  cases l with
  | nil => rfl
  | cons a t =>
    have ha := h a rfl
    simp [List.dropWhile_cons, ha]

theorem headNoSpaceDropWhile (l : List Char) :
    ∀ c, (l.dropWhile isPySpace).head? = some c → isPySpace c = false := by
  induction l with
  | nil => intro c hc; simp at hc
  | cons a t ih =>
    intro c hc
    by_cases ha : isPySpace a
    · rw [List.dropWhile_cons, if_pos ha] at hc
      exact ih c hc
    · rw [List.dropWhile_cons, if_neg ha] at hc
      simp only [List.head?_cons, Option.some.injEq] at hc
      subst hc
      simpa using ha

theorem headNoSpaceMono {m t : List Char} (hp : t <+: m)
    (h : ∀ c, m.head? = some c → isPySpace c = false) :
    ∀ c, t.head? = some c → isPySpace c = false := by
  obtain ⟨r, rfl⟩ := hp
  intro c hc
  cases t with
  | nil => simp at hc
  | cons a t' =>
    simp only [List.head?_cons, Option.some.injEq] at hc
    subst hc
    exact h a rfl

theorem rstripLeads (m : List Char) :
    (m.reverse.dropWhile isPySpace).reverse <+: m := by
  have h : m.reverse.dropWhile isPySpace <:+ m.reverse :=
    List.dropWhile_suffix isPySpace
  have h2 := List.reverse_prefix.mpr h
  rwa [List.reverse_reverse] at h2

theorem pyStripHead (l : List Char) :
    ∀ c, (pyStripList l).head? = some c → isPySpace c = false :=
  headNoSpaceMono (rstripLeads _) (headNoSpaceDropWhile l)

theorem pyStripLast (l : List Char) :
    ∀ c, (pyStripList l).getLast? = some c → isPySpace c = false := by
  intro c hc
  have h2 : (pyStripList l).reverse.head? = some c := by
    rw [List.head?_reverse]; exact hc
  rw [pyStripList, List.reverse_reverse] at h2
  exact headNoSpaceDropWhile _ c h2

theorem pyStripSelf {m : List Char}
    (hh : ∀ c, m.head? = some c → isPySpace c = false)
    (hl : ∀ c, m.getLast? = some c → isPySpace c = false) :
    pyStripList m = m := by
  unfold pyStripList
  rw [dropWhileSelf m hh]
  rw [dropWhileSelf m.reverse (fun c hc => hl c (by rwa [List.head?_reverse] at hc))]
  exact List.reverse_reverse m

theorem collapseStepSpaceFalse (c : Char) (cs : List Char) (h : isPySpace c = true) :
    collapseAux false (c :: cs) = ' ' :: collapseAux true cs := by
  simp [collapseAux, h]

theorem collapseStepSpaceTrue (c : Char) (cs : List Char) (h : isPySpace c = true) :
    collapseAux true (c :: cs) = collapseAux true cs := by
  simp [collapseAux, h]

theorem collapseStepNonspace (b : Bool) (c : Char) (cs : List Char)
    (h : isPySpace c = false) :
    collapseAux b (c :: cs) = c :: collapseAux false cs := by
  cases b <;> simp [collapseAux, h]

theorem collapseHead (m : List Char)
    (hh : ∀ c, m.head? = some c → isPySpace c = false) :
    ∀ c, (collapseWS m).head? = some c → isPySpace c = false := by
  cases m with
  | nil => intro c hc; simp [collapseWS, collapseAux] at hc
  | cons a t =>
    have ha := hh a rfl
    intro c hc
    rw [collapseWS, collapseStepNonspace false a t ha] at hc
    simp only [List.head?_cons, Option.some.injEq] at hc
    subst hc
    exact ha

theorem consGetLastSome (a : Char) (t : List Char) : ∃ c, (a :: t).getLast? = some c := by
  induction t generalizing a with
  | nil => exact ⟨a, rfl⟩
  | cons b t' ih =>
    rw [List.getLast?_cons_cons]
    exact ih b

theorem getLastConsNe (x : Char) (X : List Char) (h : X ≠ []) :
    (x :: X).getLast? = X.getLast? := by
  cases X with
  | nil => exact absurd rfl h
  | cons y Y => exact List.getLast?_cons_cons

theorem collapseLastEq (m : List Char) :
    ∀ b c, m.getLast? = some c → isPySpace c = false →
      (collapseAux b m).getLast? = some c := by
  induction m with
  | nil => intro b c hc _; simp at hc
  | cons a t ih =>
    intro b c hc hcs
    cases t with
    | nil =>
      simp only [List.getLast?_singleton, Option.some.injEq] at hc
      subst hc
      cases b <;> simp [collapseAux, hcs]
    | cons a2 t2 =>
      rw [List.getLast?_cons_cons] at hc
      have h2 := ih true c hc hcs
      have h3 := ih false c hc hcs
      have hne2 : collapseAux true (a2 :: t2) ≠ [] := by
        intro h0; rw [h0] at h2; simp at h2
      have hne3 : collapseAux false (a2 :: t2) ≠ [] := by
        intro h0; rw [h0] at h3; simp at h3
      by_cases ha : isPySpace a
      · cases b with
        | true =>
          rw [collapseStepSpaceTrue a (a2 :: t2) ha]
          exact h2
        | false =>
          rw [collapseStepSpaceFalse a (a2 :: t2) ha]
          rw [getLastConsNe _ _ hne2]
          exact h2
      · rw [collapseStepNonspace b a (a2 :: t2) (by simpa using ha)]
        rw [getLastConsNe _ _ hne3]
        exact h3

theorem collapseLast (m : List Char)
    (hl : ∀ c, m.getLast? = some c → isPySpace c = false) :
    ∀ c, (collapseWS m).getLast? = some c → isPySpace c = false := by
  cases m with
  | nil => intro c hc; simp [collapseWS, collapseAux] at hc
  | cons a t =>
    intro c hc
    obtain ⟨c0, hc0⟩ := consGetLastSome a t
    have hns := hl c0 hc0
    have heq := collapseLastEq (a :: t) false c0 hc0 hns
    rw [collapseWS] at hc
    rw [heq] at hc
    injection hc with hc
    subst hc
    exact hns

theorem collapseIdem (l : List Char) :
    ∀ b, collapseAux b (collapseAux b l) = collapseAux b l := by
  induction l with
  | nil => intro b; rfl
  | cons c cs ih =>
    intro b
    by_cases h : isPySpace c
    · cases b with
      | true =>
        rw [collapseStepSpaceTrue c cs h]
        exact ih true
      | false =>
        rw [collapseStepSpaceFalse c cs h]
        rw [collapseStepSpaceFalse ' ' (collapseAux true cs) rfl]
        rw [ih true]
    · rw [collapseStepNonspace b c cs (by simpa using h)]
      rw [collapseStepNonspace b c (collapseAux false cs) (by simpa using h)]
      rw [ih false]

theorem stripCollapseStrip (l : List Char) :
    pyStripList (collapseWS (pyStripList l)) = collapseWS (pyStripList l) :=
  pyStripSelf (collapseHead _ (pyStripHead l)) (collapseLast _ (pyStripLast l))

/-- C4 counterexample: the normalizer is not idempotent.  Removing the URL
from "a http://x b" leaves the double space "a  b", which a second
normalization collapses to "a b". -/
theorem clean_not_idempotent_on_url_gap :
    clean_text_for_classification (clean_text_for_classification "a http://x b") ≠
      clean_text_for_classification "a http://x b" := by
  decide

/-- C4 amended: the normalizer is idempotent on every input on which the URL
and email removal passes act as the identity (after whitespace collapsing)
and whose cleaned form stays within 500 characters; in general URL or email
removal can leave adjacent spaces, or truncation can create them, and a
second pass then collapses them, so idempotence fails. -/
theorem clean_idempotent_no_url_email (x : String)
    (hu : stripUrls (collapseWS (pyStripList x.data)) = collapseWS (pyStripList x.data))
    (he : stripEmails (collapseWS (pyStripList x.data)) = collapseWS (pyStripList x.data))
    (hlen : (collapseWS (pyStripList x.data)).length ≤ 500) :
    clean_text_for_classification (clean_text_for_classification x) =
      clean_text_for_classification x := by
  have hy := stripCollapseStrip x.data
  have h1 : clean_text_for_classification x =
      String.mk (collapseWS (pyStripList x.data)) := by
    simp only [clean_text_for_classification, cleanList]
    rw [hu, he, if_neg (by omega), hy]
  rw [h1]
  simp only [clean_text_for_classification, cleanList]
  rw [hy]
  have hcc : collapseWS (collapseWS (pyStripList x.data)) = collapseWS (pyStripList x.data) :=
    collapseIdem (pyStripList x.data) false
  rw [hcc, hu, he, if_neg (by omega), hy]

/-- C4 witness: "hello world" satisfies the amended hypotheses, and the
normalizer is idempotent on it. -/
theorem clean_idempotent_no_url_email_instance :
    clean_text_for_classification (clean_text_for_classification "hello world") =
      clean_text_for_classification "hello world" :=
  clean_idempotent_no_url_email "hello world" (by decide) (by decide) (by decide)

/-- C6: for a well-formed UUID whose row is absent, the store endpoint answers
not-found and the committed table is exactly the table it started from. -/
theorem store_missing_article_not_found
    (encode : String → Except String (List ℚ)) (db : DB) (id t : String) (emb : List ℚ)
    (h1 : isValidUUID id = true) (h2 : pyStrip t ≠ "")
    (h3 : encode (pyStrip t) = Except.ok emb)
    (h4 : dbGet db (uuidKey id) = none) :
    generate_and_store_embedding encode db id (some t) = (StoreResponse.notFound, db) := by
  simp [generate_and_store_embedding, h1, h2, h3, h4]

/-- C6 witness: storing against an empty table with the zero UUID answers
not-found and leaves the table empty. -/
theorem store_missing_article_not_found_instance :
    generate_and_store_embedding encOne [] zeroUuid (some "hi") =
      (StoreResponse.notFound, []) :=
  store_missing_article_not_found encOne [] zeroUuid "hi" [0]
    (by decide) (by decide) (by decide) (by decide)

theorem storeBatchLoop_success_count (encode : String → Except String (List ℚ)) :
    ∀ (items : List (Option String × String)) (db : DB),
      (storeBatchLoop encode items db).2.1 =
        ((storeBatchLoop encode items db).2.2.filter
          (fun r => r.status == "success")).length := by
  intro items
  induction items with
  | nil => intro db; rfl
  | cons item rest ih =>
    intro db
    cases hid : item.1 with
    | none => simp [storeBatchLoop, hid, ih db]
    | some aid =>
      by_cases hblank : aid = "" ∨ pyStrip item.2 = ""
      · simp [storeBatchLoop, hid, hblank, ih db]
      · by_cases hval : isValidUUID aid
        · cases henc : encode (pyStrip item.2) with
          | error e => simp [storeBatchLoop, hid, hblank, hval, henc, ih db]
          | ok emb =>
            cases hget : dbGet db (uuidKey aid) with
            | none => simp [storeBatchLoop, hid, hblank, hval, henc, hget, ih db]
            | some art => simp [storeBatchLoop, hid, hblank, hval, henc, hget, ih]
        · simp [storeBatchLoop, hid, hblank, hval, ih db]

/-- C5: a two-item batch with one bad-UUID item and one valid item whose row
exists reports the invalid item as an item-level error without aborting,
commits the valid item's embedding and status update in the batch
transaction, and returns successful count 1; and in every batch the
successful count equals the number of committed (success) items. -/
theorem batch_store_partial_success
    (encode : String → Except String (List ℚ)) (db : DB)
    (id1 t1 id2 t2 : String) (emb : List ℚ) (art : ArticleRec)
    (h1 : id1 ≠ "") (h2 : pyStrip t1 ≠ "") (h3 : isValidUUID id1 = false)
    (h4 : isValidUUID id2 = true) (h5 : pyStrip t2 ≠ "")
    (h6 : encode (pyStrip t2) = Except.ok emb)
    (h7 : dbGet db (uuidKey id2) = some art) :
    (generate_batch_embeddings_and_store encode db
        (ArticlesField.list [(some id1, t1), (some id2, t2)]) =
      (StoreBatchResponse.ok ⟨2, 1,
        [⟨some id1, "error", some "Invalid article ID format", none⟩,
         ⟨some id2, "success", none, some emb.length⟩]⟩,
       dbSet db (uuidKey id2)
         { art with embedding := some emb, embedding_status := "success" })) ∧
    ∀ (items : List (Option String × String)) (db2 : DB),
      (storeBatchLoop encode items db2).2.1 =
        ((storeBatchLoop encode items db2).2.2.filter
          (fun r => r.status == "success")).length := by
  have h8 : id2 ≠ "" := by
    intro he; rw [he] at h4; exact absurd h4 (by decide)
  refine ⟨?_, storeBatchLoop_success_count encode⟩
  simp [generate_batch_embeddings_and_store, storeBatchLoop, h1, h2, h3, h4, h5, h6, h7, h8]

/-- C5 witness: a concrete batch with one malformed id and one stored article
commits the one update and reports the other item's error. -/
theorem batch_store_partial_success_instance :
    generate_batch_embeddings_and_store encOne [(zeroKey, ArticleRec.mk none "pending")]
        (ArticlesField.list [(some "bad-id", "x"), (some zeroUuid, "y")]) =
      (StoreBatchResponse.ok ⟨2, 1,
        [⟨some "bad-id", "error", some "Invalid article ID format", none⟩,
         ⟨some zeroUuid, "success", none, some 1⟩]⟩,
       dbSet [(zeroKey, ArticleRec.mk none "pending")] (uuidKey zeroUuid)
         (ArticleRec.mk (some [0]) "success")) :=
  (batch_store_partial_success encOne [(zeroKey, ArticleRec.mk none "pending")]
    "bad-id" "x" zeroUuid "y" [0] (ArticleRec.mk none "pending")
    (by decide) (by decide) (by decide) (by decide) (by decide) (by decide) (by decide)).1

/-- C7 counterexample: a proper, nonempty list whose entries are all blank is
rejected with a validation error, not answered with a success response of
dimension 0 as the claim states; so the claimed characterisation of when
ValidationError occurs is also wrong. -/
theorem embed_batch_all_blank_is_error :
    generate_batch_embeddings encBatchOne (TextsField.list ["", "  "]) =
      BatchEmbedResponse.validationError "No valid texts provided" := by
  decide

/-- C7 amended: the batch embed endpoint fails with a validation error when
the texts field is absent, not a list, an empty list, or has only blank
entries; otherwise it makes one batch collaborator call over the stripped
survivors and returns them positionally aligned with their vectors, with the
count and the dimension of the first vector. -/
theorem embed_batch_contract
    (encodeB : List String → Except String (List (List ℚ)))
    (texts : List String) (vs : List (List ℚ)) :
    generate_batch_embeddings encodeB TextsField.absent =
      BatchEmbedResponse.validationError "Missing texts field in request" ∧
    generate_batch_embeddings encodeB TextsField.notList =
      BatchEmbedResponse.validationError "Empty or invalid texts list" ∧
    generate_batch_embeddings encodeB (TextsField.list []) =
      BatchEmbedResponse.validationError "Empty or invalid texts list" ∧
    (texts ≠ [] → embedSurvivors texts = [] →
      generate_batch_embeddings encodeB (TextsField.list texts) =
        BatchEmbedResponse.validationError "No valid texts provided") ∧
    (embedSurvivors texts ≠ [] → encodeB (embedSurvivors texts) = Except.ok vs →
      generate_batch_embeddings encodeB (TextsField.list texts) =
        BatchEmbedResponse.ok ⟨embedSurvivors texts, vs, vs.length,
          match vs with | [] => 0 | v :: _ => v.length⟩) := by
  refine ⟨rfl, rfl, rfl, ?_, ?_⟩
  · intro hne hsur
    simp [generate_batch_embeddings, hne, hsur]
  · intro hsur henc
    have hne : texts ≠ [] := by
      intro he; rw [he] at hsur; exact hsur rfl
    simp [generate_batch_embeddings, hne, hsur, henc]

/-- C7 witness: for the list with one blank and one valid entry, the amended
contract yields the aligned success response. -/
theorem embed_batch_contract_instance :
    generate_batch_embeddings encBatchOne (TextsField.list ["", "hi"]) =
      BatchEmbedResponse.ok ⟨embedSurvivors ["", "hi"], [[0]], 1, 1⟩ :=
  (embed_batch_contract encBatchOne ["", "hi"] [[0]]).2.2.2.2 (by decide) (by decide)

theorem mem_enumFrom_get (l : List String) :
    ∀ (n : Nat) (p : Nat × String), p ∈ l.enumFrom n →
      n ≤ p.1 ∧ l.get? (p.1 - n) = some p.2 := by
  induction l with
  | nil => intro n p hp; simp [List.enumFrom] at hp
  | cons a t ih =>
    intro n p hp
    simp only [List.enumFrom, List.mem_cons] at hp
    cases hp with
    | inl h =>
      subst h
      simp
    | inr h =>
      obtain ⟨hle, hget⟩ := ih (n + 1) p h
      refine ⟨by omega, ?_⟩
      have hsub : p.1 - n = (p.1 - (n + 1)) + 1 := by omega
      rw [hsub]
      simpa using hget

theorem classifyLoop_shape (classify : String → List (List PyDict)) :
    ∀ (ps : List (Nat × String)) (rs : List ClassifyItem),
      classifyLoop classify ps = Except.ok rs →
      rs.map (fun it => it.index) = ps.map Prod.fst ∧
      ∀ it ∈ rs, ∃ p ∈ ps, it.index = p.1 ∧ it.text = truncDisplay p.2 := by
  intro ps
  induction ps with
  | nil =>
    intro rs h
    simp only [classifyLoop] at h
    injection h with h
    subst h
    simp
  | cons p ps ih =>
    intro rs h
    simp only [classifyLoop] at h
    cases hsc : calculate_article_score p.2
        (classify (clean_text_for_classification (pyStrip p.2))) with
    | error e => rw [hsc] at h; exact absurd h (by simp)
    | ok sc =>
      rw [hsc] at h
      cases hlp : classifyLoop classify ps with
      | error e => rw [hlp] at h; exact absurd h (by simp)
      | ok rest =>
        rw [hlp] at h
        simp only at h
        injection h with h
        subst h
        obtain ⟨hmap, hmem⟩ := ih rest hlp
        constructor
        · simp [hmap]
        · intro it hit
          simp only [List.mem_cons] at hit
          cases hit with
          | inl hh => subst hh; exact ⟨p, by simp⟩
          | inr hh =>
            obtain ⟨p2, hp2, hidx, htxt⟩ := hmem it hh
            exact ⟨p2, by simp [hp2], hidx, htxt⟩

/-- C8: when the classify batch succeeds, each result carries the original
positional index of the text it was computed from: the index sequence equals
the index sequence of the nonblank survivors, each result's display text is
the truncation of the text at its index, and the counts match. -/
theorem classify_batch_preserves_indices
    (classify : String → List (List PyDict)) (texts : List String) (r : ClassifyBatchOk)
    (h : classify_batch_content classify (TextsField.list texts) = ClassifyBatchResponse.ok r) :
    r.results.map (fun it => it.index) = (classifySurvivors texts).map Prod.fst ∧
    (∀ it ∈ r.results, ∃ t, texts.get? it.index = some t ∧ it.text = truncDisplay t) ∧
    r.count = r.results.length ∧ r.processed = (classifySurvivors texts).length := by
  simp only [classify_batch_content] at h
  by_cases hemp : texts.isEmpty
  · rw [if_pos hemp] at h; exact absurd h (by simp)
  · rw [if_neg hemp] at h
    by_cases hsur : (classifySurvivors texts).isEmpty
    · rw [if_pos hsur] at h; exact absurd h (by simp)
    · rw [if_neg hsur] at h
      cases hlp : classifyLoop classify (classifySurvivors texts) with
      | error e => rw [hlp] at h; exact absurd h (by simp)
      | ok rs =>
        rw [hlp] at h
        simp only at h
        injection h with h
        subst h
        obtain ⟨hmap, hmem⟩ := classifyLoop_shape classify (classifySurvivors texts) rs hlp
        refine ⟨hmap, ?_, rfl, rfl⟩
        intro it hit
        obtain ⟨p, hp, hidx, htxt⟩ := hmem it hit
        have hpe : p ∈ texts.enum := List.mem_of_mem_filter hp
        have hget := mem_enumFrom_get texts 0 p (by simpa [List.enum] using hpe)
        refine ⟨p.2, ?_, htxt⟩
        rw [hidx]
        simpa using hget.2

/-- C8 witness: for the texts ["", "valid one", "valid two"] the results
reference the original indices 1 and 2 only. -/
theorem classify_batch_preserves_indices_instance :
    exampleClassifyOk.results.map (fun it => it.index) =
      (classifySurvivors ["", "valid one", "valid two"]).map Prod.fst :=
  (classify_batch_preserves_indices classifyNone ["", "valid one", "valid two"]
    exampleClassifyOk (by decide)).1

/-- C9 counterexample: two runs of the batch store differing only in the
collaborator's exception text produce different caller-visible responses:
the item-level message embeds `str(e)` verbatim. -/
theorem batch_item_error_leaks_detail :
    generate_batch_embeddings_and_store (fun _ => Except.error "model failure alpha") []
        (ArticlesField.list [(some zeroKey, "hi")]) =
      (StoreBatchResponse.ok ⟨1, 0,
        [⟨some zeroKey, "error", some "model failure alpha", none⟩]⟩, []) ∧
    generate_batch_embeddings_and_store (fun _ => Except.error "model failure beta") []
        (ArticlesField.list [(some zeroKey, "hi")]) =
      (StoreBatchResponse.ok ⟨1, 0,
        [⟨some zeroKey, "error", some "model failure beta", none⟩]⟩, []) ∧
    (StoreBatchResponse.ok (⟨1, 0,
        [⟨some zeroKey, "error", some "model failure alpha", none⟩]⟩ : StoreBatchOk) ≠
      StoreBatchResponse.ok ⟨1, 0,
        [⟨some zeroKey, "error", some "model failure beta", none⟩]⟩) :=
  ⟨by decide, by decide, by decide⟩

/-- C9 amended: the single embed endpoint does answer unexpected collaborator
failures with the constant generic notice, independent of the exception text;
but the per-item messages of the batch store endpoint embed the exception
text, as the counterexample shows. -/
theorem embed_internal_error_uniform (m1 m2 t : String) (h : pyStrip t ≠ "") :
    generate_embedding (fun _ => Except.error m1) (some t) =
      EmbedResponse.internalError "Internal server error" ∧
    generate_embedding (fun _ => Except.error m2) (some t) =
      EmbedResponse.internalError "Internal server error" := by
  constructor <;> simp [generate_embedding, h]

/-- C9 witness: two failing runs on the text "hi" both answer with the same
generic notice. -/
theorem embed_internal_error_uniform_instance :
    generate_embedding (fun _ => Except.error "boom one") (some "hi") =
      EmbedResponse.internalError "Internal server error" ∧
    generate_embedding (fun _ => Except.error "boom two") (some "hi") =
      EmbedResponse.internalError "Internal server error" :=
  embed_internal_error_uniform "boom one" "boom two" "hi" (by decide)
